import Mathlib

/-!
# TeamCoherenceMonitor — verification of the scoring/alerting engine

Shallow embedding of `src/teamcoherencemonitor.py`.

Modelling conventions:
* Python `float` values are embedded as `ℚ` (exact rational arithmetic).
* `datetime` instants are embedded as integer epoch seconds (`Int`); a
  `timedelta` is a number of seconds, so `timedelta(hours=1)` is `3600`
  and `timedelta(minutes=m)` is `m * 60`.  `datetime.now()` becomes an
  explicit `now : Int` argument threaded through the stateful operations.
* Python `dict` (insertion ordered, string keyed) is embedded as an
  association list `List (String × _)`; a fresh key is appended at the end.
* Python `round(x, 1)` (round-half-to-even at one decimal) is `pyRound1`.
-/

/-- `l[-k:]` in Python: the suffix of the `k` most recent entries. -/
def lastN (k : Nat) (l : List α) : List α := l.drop (l.length - k)

/-- `statistics.mean` on a list of rationals (callers guard non-emptiness). -/
def listMean (l : List ℚ) : ℚ := l.sum / (l.length : ℚ)

/-- Python `min(scores)` for a non-empty list (0 for the empty list). -/
def listMin : List ℚ → ℚ
  | [] => 0
  | x :: xs => xs.foldl min x

/-- Python `max(scores)` for a non-empty list (0 for the empty list). -/
def listMax : List ℚ → ℚ
  | [] => 0
  | x :: xs => xs.foldl max x

/-- Round-half-to-even to an integer (the rounding Python's `round` uses). -/
def roundHalfEven (q : ℚ) : Int :=
  let f := ⌊q⌋
  let r := q - (f : ℚ)
  if r < 1/2 then f
  else if 1/2 < r then f + 1
  else if f % 2 = 0 then f else f + 1

/-- Python `round(x, 1)`: round-half-to-even at one decimal place. -/
def pyRound1 (q : ℚ) : ℚ := ((roundHalfEven (q * 10) : ℚ)) / 10

theorem roundHalfEven_intCast (n : ℤ) : roundHalfEven ((n : ℚ)) = n := by
  unfold roundHalfEven
  rw [Int.floor_intCast]
  norm_num

theorem pyRound1_intCast (n : ℤ) : pyRound1 ((n : ℚ)) = (n : ℚ) := by
  unfold pyRound1
  rw [show ((n : ℚ) * 10) = (((n * 10 : ℤ) : ℚ)) by push_cast; ring, roundHalfEven_intCast]
  push_cast
  field_simp

/-- `AgentStatus` (lines 40-52): current status of a single agent.
Field defaults mirror the dataclass defaults. -/
structure AgentStatus where
  name : String
  last_seen : Option Int := none
  is_active : Bool := false
  response_latencies : List ℚ := []
  mentions_received : Nat := 0
  mentions_acknowledged : Nat := 0
  correct_claims : Nat := 0
  total_claims : Nat := 0
  messages_sent : Nat := 0
  errors_detected : Nat := 0
deriving DecidableEq

/-- `AgentStatus(name=name)`: a freshly registered record (line 608). -/
def mkAgent (n : String) : AgentStatus := { name := n }

namespace AgentStatus

/-- `AgentStatus.ack_rate` (lines 54-58). -/
def ack_rate (a : AgentStatus) : ℚ :=
  if a.mentions_received = 0 then 100
  else ((a.mentions_acknowledged : ℚ) / (a.mentions_received : ℚ)) * 100

/-- `AgentStatus.avg_latency` (lines 60-64). -/
def avg_latency (a : AgentStatus) : ℚ :=
  if a.response_latencies = [] then 0
  else listMean a.response_latencies

/-- `AgentStatus.context_fidelity` (lines 66-70). -/
def context_fidelity (a : AgentStatus) : ℚ :=
  if a.total_claims = 0 then 100
  else ((a.correct_claims : ℚ) / (a.total_claims : ℚ)) * 100

end AgentStatus

/-- `Alert` (lines 104-113): an immutable coordination alert. -/
structure Alert where
  timestamp : Int
  severity : String
  agent : Option String
  metric : String
  message : String
  value : ℚ
  threshold : ℚ
deriving DecidableEq

/-- `CoherenceSnapshot` (lines 141-149). -/
structure CoherenceSnapshot where
  timestamp : Int
  overall_score : ℚ
  agent_scores : List (String × ℚ)
  active_agents : Nat
  total_agents : Nat
  alerts_active : Nat
deriving DecidableEq

/-- `Thresholds` (lines 167-188) with the dataclass defaults. -/
structure Thresholds where
  latency_warning : ℚ := 30
  latency_critical : ℚ := 60
  ack_rate_warning : ℚ := 80
  ack_rate_critical : ℚ := 60
  fidelity_warning : ℚ := 90
  fidelity_critical : ℚ := 70
  inactive_warning : ℚ := 120
  inactive_critical : ℚ := 300
  coherence_warning : ℚ := 75
  coherence_critical : ℚ := 50
deriving DecidableEq

namespace CoherenceScorer

/-- `CoherenceScorer.score_latency` (lines 226-246). -/
def score_latency (t : Thresholds) (avg_latency : ℚ) : ℚ :=
  if avg_latency ≤ 0 then 100
  else if t.latency_critical ≤ avg_latency then 0
  else if avg_latency ≤ 5 then 100
  else
    let range_size := t.latency_critical - 5
    max 0 (min 100 (100 - (avg_latency - 5) / range_size * 100))

/-- `CoherenceScorer.score_activity` (lines 248-268). -/
def score_activity (t : Thresholds) (seconds_since_seen : ℚ) : ℚ :=
  if seconds_since_seen ≤ 0 then 100
  else if t.inactive_critical ≤ seconds_since_seen then 0
  else if seconds_since_seen ≤ 30 then 100
  else
    let range_size := t.inactive_critical - 30
    max 0 (min 100 (100 - (seconds_since_seen - 30) / range_size * 100))

/-- `CoherenceScorer.calculate_agent_score` (lines 270-304); weights from
`WEIGHTS` (lines 215-220). -/
def calculate_agent_score (t : Thresholds) (now : Int) (agent : AgentStatus) : ℚ :=
  let ack_score := agent.ack_rate
  let latency_score := score_latency t agent.avg_latency
  let fidelity_score := agent.context_fidelity
  let seconds_since : ℚ :=
    match agent.last_seen with
    | some ls => ((now - ls : Int) : ℚ)
    | none => t.inactive_critical
  let activity_score := score_activity t seconds_since
  pyRound1 (ack_score * (30/100) + latency_score * (25/100) +
            fidelity_score * (30/100) + activity_score * (15/100))

/-- `CoherenceScorer.calculate_team_score` (lines 306-326). -/
def calculate_team_score (t : Thresholds) (now : Int)
    (agents : List (String × AgentStatus)) : ℚ × List (String × ℚ) :=
  if agents = [] then (100, [])
  else
    let agent_scores := agents.map (fun p => (p.1, calculate_agent_score t now p.2))
    (pyRound1 (listMean (agent_scores.map Prod.snd)), agent_scores)

end CoherenceScorer

/-! ## Basic facts about the bounded-suffix operation -/

theorem length_lastN (k : Nat) (l : List α) : (lastN k l).length = min k l.length := by
  simp [lastN]
  omega

theorem lastN_of_le {k : Nat} {l : List α} (h : l.length ≤ k) : lastN k l = l := by
  simp [lastN, Nat.sub_eq_zero_of_le h]

theorem lastN_length_le (k : Nat) (l : List α) : (lastN k l).length ≤ k := by
  rw [length_lastN]; omega

/-- `if length > k then l[-k:] else l` always equals `l[-k:]`. -/
theorem trunc_eq_lastN (k : Nat) (l : List α) :
    (if k < l.length then lastN k l else l) = lastN k l := by
  split
  · rfl
  · exact (lastN_of_le (by omega)).symm

/-! ## C3: two freshly registered agents score 85.0 -/

/-- C3: with default thresholds, a freshly registered agent record (all
counters zero, empty latency history, `last_seen` absent) scores 85.0
(ack-rate 100, latency-score 100, fidelity 100, activity-score 0 because a
never-seen agent is treated as elapsed time equal to the critical-inactivity
threshold), and a team of exactly two such agents has team score 85.0. -/
theorem fresh_agents_score_85 (now : Int) (n1 n2 : String) :
    CoherenceScorer.calculate_agent_score {} now (mkAgent n1) = 85 ∧
    CoherenceScorer.calculate_agent_score {} now (mkAgent n2) = 85 ∧
    (CoherenceScorer.calculate_team_score {} now
        [(n1, mkAgent n1), (n2, mkAgent n2)]).1 = 85 := by
  have key : ∀ nm : String,
      CoherenceScorer.calculate_agent_score ({} : Thresholds) now (mkAgent nm) = 85 := by
    intro nm
    simp only [CoherenceScorer.calculate_agent_score, mkAgent, AgentStatus.ack_rate,
      AgentStatus.avg_latency, AgentStatus.context_fidelity,
      CoherenceScorer.score_latency, CoherenceScorer.score_activity]
    norm_num
    exact_mod_cast pyRound1_intCast 85
  refine ⟨key n1, key n2, ?_⟩
  simp only [CoherenceScorer.calculate_team_score, List.map, key, listMean]
  norm_num
  exact_mod_cast pyRound1_intCast 85

/-! ## C7: shape of the latency-scoring curve -/

theorem score_latency_bounds (t : Thresholds) (x : ℚ) :
    0 ≤ CoherenceScorer.score_latency t x ∧ CoherenceScorer.score_latency t x ≤ 100 := by
  unfold CoherenceScorer.score_latency
  split_ifs <;> exact ⟨by norm_num, by norm_num⟩

theorem score_latency_antitone (t : Thresholds) {x y : ℚ} (hxy : x ≤ y) :
    CoherenceScorer.score_latency t y ≤ CoherenceScorer.score_latency t x := by
  by_cases h1 : x ≤ 0
  · have hx : CoherenceScorer.score_latency t x = 100 := by
      simp only [CoherenceScorer.score_latency, if_pos h1]
    rw [hx]; exact (score_latency_bounds t y).2
  by_cases h2 : t.latency_critical ≤ x
  · have hy0 : ¬ y ≤ 0 := by linarith
    have hyc : t.latency_critical ≤ y := le_trans h2 hxy
    simp only [CoherenceScorer.score_latency, if_neg h1, if_pos h2, if_neg hy0, if_pos hyc]
    exact le_rfl
  by_cases h3 : x ≤ 5
  · have hx : CoherenceScorer.score_latency t x = 100 := by
      simp only [CoherenceScorer.score_latency, if_neg h1, if_neg h2, if_pos h3]
    rw [hx]; exact (score_latency_bounds t y).2
  -- now 5 < x < critical, so the interpolation interval is non-degenerate
  have hx5 : (5:ℚ) < x := lt_of_not_le h3
  have hxc : x < t.latency_critical := lt_of_not_le h2
  have hy0 : ¬ y ≤ 0 := by linarith
  have hy5 : ¬ y ≤ 5 := by linarith
  by_cases h4 : t.latency_critical ≤ y
  · have hy : CoherenceScorer.score_latency t y = 0 := by
      simp only [CoherenceScorer.score_latency, if_neg hy0, if_pos h4]
    rw [hy]; exact (score_latency_bounds t x).1
  · have hc5 : (0:ℚ) < t.latency_critical - 5 := by linarith
    have hdiv : (x - 5) / (t.latency_critical - 5) ≤ (y - 5) / (t.latency_critical - 5) := by
      rw [div_le_div_iff₀ hc5 hc5]
      exact mul_le_mul_of_nonneg_right (by linarith) (by linarith)
    simp only [CoherenceScorer.score_latency, if_neg h1, if_neg h2, if_neg h3,
      if_neg hy0, if_neg h4, if_neg hy5]
    exact max_le_max (le_refl 0) (min_le_min (le_refl 100) (by linarith))

/-- C7: `score_latency` is monotonically non-increasing in its argument;
`score_latency 0 = 100`; for a positive critical threshold every argument at
or above the threshold scores 0; and the result always lies in `[0, 100]`. -/
theorem score_latency_monotone_bounds (t : Thresholds) (h : 0 < t.latency_critical) :
    (∀ x y : ℚ, x ≤ y →
        CoherenceScorer.score_latency t y ≤ CoherenceScorer.score_latency t x) ∧
    CoherenceScorer.score_latency t 0 = 100 ∧
    (∀ x : ℚ, t.latency_critical ≤ x → CoherenceScorer.score_latency t x = 0) ∧
    (∀ x : ℚ, 0 ≤ CoherenceScorer.score_latency t x ∧
        CoherenceScorer.score_latency t x ≤ 100) := by
  refine ⟨fun x y hxy => score_latency_antitone t hxy, ?_, ?_, score_latency_bounds t⟩
  · norm_num [CoherenceScorer.score_latency]
  · intro x hx
    have hx0 : ¬ x ≤ 0 := by linarith
    simp only [CoherenceScorer.score_latency, if_neg hx0, if_pos hx]

/-- Witness for `score_latency_monotone_bounds` at the default thresholds. -/
theorem score_latency_monotone_bounds_witness :
    (0:ℚ) < ({} : Thresholds).latency_critical ∧
    CoherenceScorer.score_latency {} 0 = 100 := by
  have h : (0:ℚ) < ({} : Thresholds).latency_critical := by norm_num
  exact ⟨h, (score_latency_monotone_bounds {} h).2.1⟩

/-! ## Alert engine -/

/-- `AlertSystem` state (lines 338-342): thresholds, the active-alert set and
the bounded alert history. -/
structure AlertSystem where
  thresholds : Thresholds
  active_alerts : List Alert := []
  alert_history : List Alert := []
deriving DecidableEq

namespace AlertSystem

/-- The acknowledgment-rate block of `AlertSystem.check_agent` (lines 357-379). -/
def ack_alerts (t : Thresholds) (now : Int) (a : AgentStatus) : List Alert :=
  if a.mentions_received > 0 then
    if a.ack_rate < t.ack_rate_critical then
      [{ timestamp := now, severity := "CRITICAL", agent := some a.name, metric := "ack_rate",
         message := a.name ++ " acknowledgment rate critically low",
         value := a.ack_rate, threshold := t.ack_rate_critical }]
    else if a.ack_rate < t.ack_rate_warning then
      [{ timestamp := now, severity := "WARNING", agent := some a.name, metric := "ack_rate",
         message := a.name ++ " acknowledgment rate below threshold",
         value := a.ack_rate, threshold := t.ack_rate_warning }]
    else []
  else []

/-- The latency block of `AlertSystem.check_agent` (lines 381-403). -/
def latency_alerts (t : Thresholds) (now : Int) (a : AgentStatus) : List Alert :=
  if 0 < a.avg_latency then
    if t.latency_critical ≤ a.avg_latency then
      [{ timestamp := now, severity := "CRITICAL", agent := some a.name, metric := "latency",
         message := a.name ++ " response latency critically high",
         value := a.avg_latency, threshold := t.latency_critical }]
    else if t.latency_warning ≤ a.avg_latency then
      [{ timestamp := now, severity := "WARNING", agent := some a.name, metric := "latency",
         message := a.name ++ " response latency high",
         value := a.avg_latency, threshold := t.latency_warning }]
    else []
  else []

/-- The context-fidelity block of `AlertSystem.check_agent` (lines 405-427). -/
def fidelity_alerts (t : Thresholds) (now : Int) (a : AgentStatus) : List Alert :=
  if a.total_claims > 0 then
    if a.context_fidelity < t.fidelity_critical then
      [{ timestamp := now, severity := "CRITICAL", agent := some a.name, metric := "fidelity",
         message := a.name ++ " context fidelity critically low",
         value := a.context_fidelity, threshold := t.fidelity_critical }]
    else if a.context_fidelity < t.fidelity_warning then
      [{ timestamp := now, severity := "WARNING", agent := some a.name, metric := "fidelity",
         message := a.name ++ " context fidelity below threshold",
         value := a.context_fidelity, threshold := t.fidelity_warning }]
    else []
  else []

/-- The activity block of `AlertSystem.check_agent` (lines 429-451); the
inactive time is `(now - last_seen).total_seconds()`. -/
def activity_alerts (t : Thresholds) (now : Int) (a : AgentStatus) : List Alert :=
  match a.last_seen with
  | none => []
  | some ls =>
    let seconds_inactive : ℚ := ((now - ls : Int) : ℚ)
    if t.inactive_critical ≤ seconds_inactive then
      [{ timestamp := now, severity := "CRITICAL", agent := some a.name, metric := "activity",
         message := a.name ++ " has been inactive for " ++ toString (now - ls) ++ "s",
         value := seconds_inactive, threshold := t.inactive_critical }]
    else if t.inactive_warning ≤ seconds_inactive then
      [{ timestamp := now, severity := "WARNING", agent := some a.name, metric := "activity",
         message := a.name ++ " inactive for " ++ toString (now - ls) ++ "s",
         value := seconds_inactive, threshold := t.inactive_warning }]
    else []

/-- `AlertSystem.check_agent` (lines 344-453): the four metric blocks run in
sequence and their alerts are collected in order. -/
def check_agent (t : Thresholds) (now : Int) (a : AgentStatus) : List Alert :=
  ack_alerts t now a ++ latency_alerts t now a ++ fidelity_alerts t now a ++
    activity_alerts t now a

/-- `AlertSystem.check_team_coherence` (lines 455-488). -/
def check_team_coherence (t : Thresholds) (now : Int) (score : ℚ) : Option Alert :=
  if score < t.coherence_critical then
    some { timestamp := now, severity := "CRITICAL", agent := none, metric := "coherence",
           message := "Team coherence critically low", value := score,
           threshold := t.coherence_critical }
  else if score < t.coherence_warning then
    some { timestamp := now, severity := "WARNING", agent := none, metric := "coherence",
           message := "Team coherence below threshold", value := score,
           threshold := t.coherence_warning }
  else none

/-- `AlertSystem.process_alerts` (lines 490-507): append the new alerts to
both lists, keep the active alerts of the last hour, cap the history at the
most recent 1000 entries. -/
def process_alerts (now : Int) (s : AlertSystem) (alerts : List Alert) : AlertSystem :=
  let active := s.active_alerts ++ alerts
  let history := s.alert_history ++ alerts
  let cutoff := now - 3600
  { s with
    active_alerts := active.filter (fun a => cutoff < a.timestamp),
    alert_history := if 1000 < history.length then lastN 1000 history else history }

/-- `AlertSystem.get_active_alerts` (lines 509-521). -/
def get_active_alerts (s : AlertSystem) (severity : Option String) : List Alert :=
  match severity with
  | some sev => s.active_alerts.filter (fun a => a.severity = sev)
  | none => s.active_alerts

/-- `AlertSystem.clear_alerts` (lines 523-540): keep the alerts for which
`(agent is None or a.agent != agent) and (metric is None or a.metric != metric)`
holds, and return how many were dropped. -/
def clear_alerts (s : AlertSystem) (agent : Option String) (metric : Option String) :
    AlertSystem × Nat :=
  let before := s.active_alerts.length
  let kept := s.active_alerts.filter (fun a =>
    (match agent with
     | none => true
     | some g => decide (a.agent ≠ some g)) &&
    (match metric with
     | none => true
     | some mt => decide (a.metric ≠ mt)))
  ({ s with active_alerts := kept }, before - kept.length)

end AlertSystem

/-- An alert matches at least one of the supplied (optional) filters. -/
def matches_any (agent : Option String) (metric : Option String) (a : Alert) : Bool :=
  (agent.isSome && decide (a.agent = agent)) ||
    (metric.isSome && decide (some a.metric = metric))

/-! ## C1: which alerts does `clear_alerts` remove? -/

/-- A warning-severity latency alert for agent FORGE, used as the C1
counterexample input. -/
def cAlert : Alert :=
  { timestamp := 0, severity := "WARNING", agent := some "FORGE", metric := "latency",
    message := "FORGE response latency high", value := 31, threshold := 30 }

/-- An alert-engine state whose active set holds exactly `cAlert`. -/
def cState : AlertSystem :=
  { thresholds := {}, active_alerts := [cAlert], alert_history := [cAlert] }

/-- C1 counterexample: with both filters supplied (`agent="FORGE"`,
`metric="ack_rate"`), the active alert matches the agent filter but not the
metric filter, yet `clear_alerts` removes it and reports one removal — so an
alert need not match every supplied filter to be removed. -/
theorem clear_alerts_removes_nonmatching_metric :
    cAlert.metric ≠ "ack_rate" ∧
    cAlert ∈ cState.active_alerts ∧
    (cState.clear_alerts (some "FORGE") (some "ack_rate")).1.active_alerts = [] ∧
    (cState.clear_alerts (some "FORGE") (some "ack_rate")).2 = 1 := by
  refine ⟨by decide, by decide, ?_, ?_⟩ <;> rfl

theorem keep_pred_eq_not_matches_any (agent metric : Option String) (a : Alert) :
    ((match agent with
      | none => true
      | some g => decide (a.agent ≠ some g)) &&
     (match metric with
      | none => true
      | some mt => decide (a.metric ≠ mt))) = ! matches_any agent metric a := by
  cases agent <;> cases metric <;>
    simp [matches_any, Bool.not_or, decide_not]

/-- C1 (amended): `clear_alerts` removes an active alert exactly when the
alert matches at least one supplied filter (union, not intersection, of the
filters; with no filter supplied nothing is removed), and the returned count
equals the number of alerts removed. -/
theorem clear_alerts_spec (s : AlertSystem) (agent metric : Option String) :
    (∀ a, a ∈ (s.clear_alerts agent metric).1.active_alerts ↔
        (a ∈ s.active_alerts ∧ matches_any agent metric a = false)) ∧
    (s.clear_alerts agent metric).2 =
      (s.active_alerts.filter (fun a => matches_any agent metric a)).length ∧
    (s.clear_alerts agent metric).1.active_alerts.length +
        (s.clear_alerts agent metric).2 = s.active_alerts.length := by
  have hpred : (fun a : Alert =>
      (match agent with
       | none => true
       | some g => decide (a.agent ≠ some g)) &&
      (match metric with
       | none => true
       | some mt => decide (a.metric ≠ mt))) = fun a => ! matches_any agent metric a :=
    funext (keep_pred_eq_not_matches_any agent metric)
  have hkept : (s.clear_alerts agent metric).1.active_alerts =
      s.active_alerts.filter (fun a => ! matches_any agent metric a) := by
    simp only [AlertSystem.clear_alerts, hpred]
  have hsplit : s.active_alerts.length =
      (s.active_alerts.filter (fun a => matches_any agent metric a)).length +
        (s.active_alerts.filter (fun a => ! matches_any agent metric a)).length := by
    simpa using List.length_eq_length_filter_add
      (l := s.active_alerts) (fun a => matches_any agent metric a)
  have hcount : (s.clear_alerts agent metric).2 =
      s.active_alerts.length -
        (s.active_alerts.filter (fun a => ! matches_any agent metric a)).length := by
    simp only [AlertSystem.clear_alerts, hpred]
  refine ⟨?_, ?_, ?_⟩
  · intro a
    rw [hkept]
    simp [List.mem_filter]
  · rw [hcount]
    omega
  · rw [hkept, hcount]
    omega

/-! ## C6: alert retention after `process_alerts` -/

/-- C6: `process_alerts` appends the new alerts to both lists; afterwards an
alert is in the active set exactly when it was appended there and its
timestamp is strictly newer than `now` minus one hour, and the history is
exactly the (at most) 1000 most recently inserted alerts in insertion
order — older entries dropped first regardless of age. -/
theorem process_alerts_retention (now : Int) (s : AlertSystem) (alerts : List Alert) :
    (∀ a, a ∈ (AlertSystem.process_alerts now s alerts).active_alerts ↔
        (a ∈ s.active_alerts ++ alerts ∧ now - 3600 < a.timestamp)) ∧
    (AlertSystem.process_alerts now s alerts).alert_history =
      lastN 1000 (s.alert_history ++ alerts) ∧
    (AlertSystem.process_alerts now s alerts).alert_history.length ≤ 1000 ∧
    (AlertSystem.process_alerts now s alerts).active_alerts.Sublist
      (s.active_alerts ++ alerts) ∧
    (AlertSystem.process_alerts now s alerts).alert_history.Sublist
      (s.alert_history ++ alerts) := by
  have hhist : (AlertSystem.process_alerts now s alerts).alert_history =
      lastN 1000 (s.alert_history ++ alerts) := by
    simp only [AlertSystem.process_alerts]
    exact trunc_eq_lastN 1000 (s.alert_history ++ alerts)
  refine ⟨?_, hhist, ?_, ?_, ?_⟩
  · intro a
    simp [AlertSystem.process_alerts, List.mem_filter]
    tauto
  · rw [hhist]; exact lastN_length_le 1000 _
  · simp only [AlertSystem.process_alerts]
    exact List.filter_sublist _
  · rw [hhist]
    exact (List.drop_sublist _ _)

/-! ## C4: at most one alert per metric, critical before warning -/

theorem pairwise_len_le_one {α : Type} {R : α → α → Prop} :
    ∀ l : List α, l.length ≤ 1 → l.Pairwise R
  | [], _ => List.Pairwise.nil
  | [_], _ => by simp
  | _ :: _ :: _, h => by simp at h

theorem ack_alerts_metric (t : Thresholds) (now : Int) (a : AgentStatus) :
    ∀ x ∈ AlertSystem.ack_alerts t now a, x.metric = "ack_rate" := by
  intro x hx
  unfold AlertSystem.ack_alerts at hx
  split_ifs at hx <;> simp_all

theorem ack_alerts_len (t : Thresholds) (now : Int) (a : AgentStatus) :
    (AlertSystem.ack_alerts t now a).length ≤ 1 := by
  unfold AlertSystem.ack_alerts
  split_ifs <;> simp

theorem latency_alerts_metric (t : Thresholds) (now : Int) (a : AgentStatus) :
    ∀ x ∈ AlertSystem.latency_alerts t now a, x.metric = "latency" := by
  intro x hx
  unfold AlertSystem.latency_alerts at hx
  split_ifs at hx <;> simp_all

theorem latency_alerts_len (t : Thresholds) (now : Int) (a : AgentStatus) :
    (AlertSystem.latency_alerts t now a).length ≤ 1 := by
  unfold AlertSystem.latency_alerts
  split_ifs <;> simp

theorem fidelity_alerts_metric (t : Thresholds) (now : Int) (a : AgentStatus) :
    ∀ x ∈ AlertSystem.fidelity_alerts t now a, x.metric = "fidelity" := by
  intro x hx
  unfold AlertSystem.fidelity_alerts at hx
  split_ifs at hx <;> simp_all

theorem fidelity_alerts_len (t : Thresholds) (now : Int) (a : AgentStatus) :
    (AlertSystem.fidelity_alerts t now a).length ≤ 1 := by
  unfold AlertSystem.fidelity_alerts
  split_ifs <;> simp

theorem activity_alerts_metric (t : Thresholds) (now : Int) (a : AgentStatus) :
    ∀ x ∈ AlertSystem.activity_alerts t now a, x.metric = "activity" := by
  intro x hx
  unfold AlertSystem.activity_alerts at hx
  cases hls : a.last_seen with
  | none => simp only [hls] at hx; simp at hx
  | some ls =>
    simp only [hls] at hx
    split_ifs at hx <;> simp_all

theorem activity_alerts_len (t : Thresholds) (now : Int) (a : AgentStatus) :
    (AlertSystem.activity_alerts t now a).length ≤ 1 := by
  unfold AlertSystem.activity_alerts
  cases hls : a.last_seen with
  | none => simp only [hls]; simp
  | some ls =>
    simp only [hls]
    split_ifs <;> simp

theorem check_agent_metric_pairwise (t : Thresholds) (now : Int) (a : AgentStatus) :
    (AlertSystem.check_agent t now a).Pairwise fun x y => x.metric ≠ y.metric := by
  unfold AlertSystem.check_agent
  refine List.pairwise_append.2
    ⟨?_, pairwise_len_le_one _ (activity_alerts_len t now a), ?_⟩
  · refine List.pairwise_append.2
      ⟨?_, pairwise_len_le_one _ (fidelity_alerts_len t now a), ?_⟩
    · refine List.pairwise_append.2
        ⟨pairwise_len_le_one _ (ack_alerts_len t now a),
         pairwise_len_le_one _ (latency_alerts_len t now a), ?_⟩
      intro x hx y hy
      rw [ack_alerts_metric t now a x hx, latency_alerts_metric t now a y hy]
      decide
    · intro x hx y hy
      rw [fidelity_alerts_metric t now a y hy]
      rcases List.mem_append.1 hx with hx | hx
      · rw [ack_alerts_metric t now a x hx]; decide
      · rw [latency_alerts_metric t now a x hx]; decide
  · intro x hx y hy
    rw [activity_alerts_metric t now a y hy]
    rcases List.mem_append.1 hx with hx | hx
    · rcases List.mem_append.1 hx with hx | hx
      · rw [ack_alerts_metric t now a x hx]; decide
      · rw [latency_alerts_metric t now a x hx]; decide
    · rw [fidelity_alerts_metric t now a x hx]; decide

/-- C4: in one `check_agent` evaluation there is never both a WARNING and a
CRITICAL alert for the same metric (per metric at most one alert is emitted,
their metrics are pairwise distinct), and whenever both the critical and the
warning threshold of a metric are crossed, the CRITICAL alert is the one
emitted (critical is checked first). -/
theorem check_agent_one_alert_per_metric (t : Thresholds) (now : Int) (a : AgentStatus) :
    ((AlertSystem.check_agent t now a).Pairwise fun x y => x.metric ≠ y.metric) ∧
    (∀ x ∈ AlertSystem.check_agent t now a, ∀ y ∈ AlertSystem.check_agent t now a,
        x.severity = "WARNING" → y.severity = "CRITICAL" → x.metric ≠ y.metric) ∧
    (a.mentions_received > 0 → a.ack_rate < t.ack_rate_critical →
        a.ack_rate < t.ack_rate_warning →
        ∃ x ∈ AlertSystem.check_agent t now a,
          x.metric = "ack_rate" ∧ x.severity = "CRITICAL") ∧
    (0 < a.avg_latency → t.latency_warning ≤ a.avg_latency →
        t.latency_critical ≤ a.avg_latency →
        ∃ x ∈ AlertSystem.check_agent t now a,
          x.metric = "latency" ∧ x.severity = "CRITICAL") ∧
    (a.total_claims > 0 → a.context_fidelity < t.fidelity_critical →
        a.context_fidelity < t.fidelity_warning →
        ∃ x ∈ AlertSystem.check_agent t now a,
          x.metric = "fidelity" ∧ x.severity = "CRITICAL") ∧
    (∀ ls, a.last_seen = some ls →
        t.inactive_warning ≤ ((now - ls : Int) : ℚ) →
        t.inactive_critical ≤ ((now - ls : Int) : ℚ) →
        ∃ x ∈ AlertSystem.check_agent t now a,
          x.metric = "activity" ∧ x.severity = "CRITICAL") := by
  have pw := check_agent_metric_pairwise t now a
  refine ⟨pw, ?_, ?_, ?_, ?_, ?_⟩
  · intro x hx y hy hxw hyc
    have hxy : x ≠ y := by
      intro h
      subst h
      rw [hxw] at hyc
      exact absurd hyc (by decide)
    have hsymm : Symmetric fun x y : Alert => x.metric ≠ y.metric :=
      fun u v huv h => huv h.symm
    exact pw.forall hsymm hx hy hxy
  · intro h1 h2 _
    refine ⟨{ timestamp := now, severity := "CRITICAL", agent := some a.name,
              metric := "ack_rate",
              message := a.name ++ " acknowledgment rate critically low",
              value := a.ack_rate, threshold := t.ack_rate_critical }, ?_, rfl, rfl⟩
    simp [AlertSystem.check_agent, AlertSystem.ack_alerts, h1, h2]
  · intro h1 h2 h3
    refine ⟨{ timestamp := now, severity := "CRITICAL", agent := some a.name,
              metric := "latency",
              message := a.name ++ " response latency critically high",
              value := a.avg_latency, threshold := t.latency_critical }, ?_, rfl, rfl⟩
    simp [AlertSystem.check_agent, AlertSystem.latency_alerts, h1, h3]
  · intro h1 h2 _
    refine ⟨{ timestamp := now, severity := "CRITICAL", agent := some a.name,
              metric := "fidelity",
              message := a.name ++ " context fidelity critically low",
              value := a.context_fidelity, threshold := t.fidelity_critical }, ?_, rfl, rfl⟩
    simp [AlertSystem.check_agent, AlertSystem.fidelity_alerts, h1, h2]
  · intro ls hls h2 h3
    refine ⟨{ timestamp := now, severity := "CRITICAL", agent := some a.name,
              metric := "activity",
              message := a.name ++ " has been inactive for " ++ toString (now - ls) ++ "s",
              value := ((now - ls : Int) : ℚ), threshold := t.inactive_critical }, ?_, rfl, rfl⟩
    have h3' : t.inactive_critical ≤ ((now : ℚ) - (ls : ℚ)) := by push_cast at h3; exact h3
    simp [AlertSystem.check_agent, AlertSystem.activity_alerts, hls, h3']

/-! ## Monitor facade -/

/-- Python's `str.upper()` (ASCII case mapping), used by `register_agent`,
`unregister_agent` and `get_agent` to canonicalize agent names.  Defined on
the character list directly so that it evaluates by kernel reduction. -/
def pyUpper (s : String) : String := ⟨s.data.map Char.toUpper⟩

/-- Python dict lookup on the agent table (first matching key). -/
def findAgent : List (String × AgentStatus) → String → Option AgentStatus
  | [], _ => none
  | (k, a) :: rest, key => if k = key then some a else findAgent rest key

/-- In-place mutation of the record stored under `key` in the agent table. -/
def updateAgent (l : List (String × AgentStatus)) (key : String)
    (f : AgentStatus → AgentStatus) : List (String × AgentStatus) :=
  l.map fun p => if p.1 = key then (p.1, f p.2) else p

/-- `TeamCoherenceMonitor` in-memory state (lines 582-586): thresholds, the
agent table, the alert engine and the snapshot history. -/
structure TeamCoherenceMonitor where
  thresholds : Thresholds := {}
  agents : List (String × AgentStatus) := []
  alerts : AlertSystem := { thresholds := {} }
  snapshots : List CoherenceSnapshot := []
deriving DecidableEq

/-- The dictionary returned by `TeamCoherenceMonitor.get_trend`. -/
structure TrendResult where
  trend : String
  change : ℚ
  samples : Nat
  min_score : ℚ
  max_score : ℚ
  avg_score : ℚ
deriving DecidableEq

namespace TeamCoherenceMonitor

/-- `TeamCoherenceMonitor.register_agent` (lines 596-609): the name is
canonicalized to uppercase and a fresh record is created only if absent. -/
def register_agent (m : TeamCoherenceMonitor) (name : String) : TeamCoherenceMonitor :=
  let key := pyUpper name
  match findAgent m.agents key with
  | some _ => m
  | none => { m with agents := m.agents ++ [(key, mkAgent key)] }

/-- `TeamCoherenceMonitor.get_agent` (lines 627-637). -/
def get_agent (m : TeamCoherenceMonitor) (name : String) : Option AgentStatus :=
  findAgent m.agents (pyUpper name)

/-- `TeamCoherenceMonitor.record_activity` (lines 647-656). -/
def record_activity (m : TeamCoherenceMonitor) (name : String) (now : Int) :
    TeamCoherenceMonitor :=
  let m1 := register_agent m name
  { m1 with agents := (updateAgent m1.agents (pyUpper name)
      (fun a => { a with last_seen := some now, is_active := true })) }

/-- The per-record effect of `record_response` (lines 689-696): append the
latency, update `last_seen` and `messages_sent`, keep only the last 100
latencies. -/
def respUpdate (now : Int) (latency : ℚ) (a : AgentStatus) : AgentStatus :=
  let ls := a.response_latencies ++ [latency]
  { a with
    response_latencies := if 100 < ls.length then lastN 100 ls else ls,
    last_seen := some now,
    messages_sent := a.messages_sent + 1 }

/-- `TeamCoherenceMonitor.record_response` (lines 681-696). -/
def record_response (m : TeamCoherenceMonitor) (name : String) (now : Int)
    (latency : ℚ) : TeamCoherenceMonitor :=
  let m1 := register_agent m name
  { m1 with agents := updateAgent m1.agents (pyUpper name) (respUpdate now latency) }

/-- `TeamCoherenceMonitor.get_coherence_score` (lines 725-733). -/
def get_coherence_score (m : TeamCoherenceMonitor) (now : Int) : ℚ :=
  (CoherenceScorer.calculate_team_score m.thresholds now m.agents).1

/-- `TeamCoherenceMonitor.get_trend` (lines 801-846). -/
def get_trend (m : TeamCoherenceMonitor) (now : Int) (minutes : Int) : TrendResult :=
  let cutoff := now - minutes * 60
  let recent := m.snapshots.filter (fun s => cutoff < s.timestamp)
  if recent.length < 2 then
    { trend := "STABLE", change := 0, samples := recent.length,
      min_score := get_coherence_score m now,
      max_score := get_coherence_score m now,
      avg_score := get_coherence_score m now }
  else
    let scores := recent.map CoherenceSnapshot.overall_score
    let first_half := scores.take (scores.length / 2)
    let second_half := scores.drop (scores.length / 2)
    let avg_first := listMean first_half
    let avg_second := listMean second_half
    let change := avg_second - avg_first
    let trend := if 5 < change then "IMPROVING"
                 else if change < -5 then "DEGRADING" else "STABLE"
    { trend := trend, change := pyRound1 change, samples := recent.length,
      min_score := listMin scores, max_score := listMax scores,
      avg_score := pyRound1 (listMean scores) }

/-- `TeamCoherenceMonitor.clear_alerts` (lines 889-899): delegates to the
alert engine with only the agent filter, passing the name unchanged. -/
def clear_alerts (m : TeamCoherenceMonitor) (agent : Option String) :
    TeamCoherenceMonitor × Nat :=
  let r := m.alerts.clear_alerts agent none
  ({ m with alerts := r.1 }, r.2)

end TeamCoherenceMonitor

/-! ## Lookup lemmas for the agent table -/

theorem findAgent_cons_self (k : String) (a : AgentStatus)
    (rest : List (String × AgentStatus)) : findAgent ((k, a) :: rest) k = some a := by
  simp [findAgent]

theorem findAgent_cons_ne {k key : String} (h : k ≠ key) (a : AgentStatus)
    (rest : List (String × AgentStatus)) :
    findAgent ((k, a) :: rest) key = findAgent rest key := by
  simp [findAgent, h]

theorem updateAgent_cons_self (k : String) (a : AgentStatus)
    (rest : List (String × AgentStatus)) (f : AgentStatus → AgentStatus) :
    updateAgent ((k, a) :: rest) k f = (k, f a) :: updateAgent rest k f := by
  simp [updateAgent]

theorem updateAgent_cons_ne {k key : String} (h : k ≠ key) (a : AgentStatus)
    (rest : List (String × AgentStatus)) (f : AgentStatus → AgentStatus) :
    updateAgent ((k, a) :: rest) key f = (k, a) :: updateAgent rest key f := by
  simp [updateAgent, h]

theorem findAgent_updateAgent (l : List (String × AgentStatus)) (key : String)
    (f : AgentStatus → AgentStatus) :
    findAgent (updateAgent l key f) key = (findAgent l key).map f := by
  induction l with
  | nil => rfl
  | cons p rest ih =>
    obtain ⟨k, a⟩ := p
    by_cases h : k = key
    · subst h
      rw [updateAgent_cons_self, findAgent_cons_self, findAgent_cons_self]
      rfl
    · rw [updateAgent_cons_ne h, findAgent_cons_ne h, findAgent_cons_ne h]
      exact ih

theorem findAgent_append_right (l : List (String × AgentStatus)) (key : String)
    (v : AgentStatus) (h : findAgent l key = none) :
    findAgent (l ++ [(key, v)]) key = some v := by
  induction l with
  | nil => simp [findAgent]
  | cons p rest ih =>
    obtain ⟨k, a⟩ := p
    by_cases hp : k = key
    · subst hp
      rw [findAgent_cons_self] at h
      exact absurd h (by simp)
    · rw [findAgent_cons_ne hp] at h
      rw [List.cons_append, findAgent_cons_ne hp]
      exact ih h

theorem findAgent_register (m : TeamCoherenceMonitor) (name : String) :
    findAgent (m.register_agent name).agents (pyUpper name) =
      some ((findAgent m.agents (pyUpper name)).getD (mkAgent (pyUpper name))) := by
  unfold TeamCoherenceMonitor.register_agent
  cases h : findAgent m.agents (pyUpper name) with
  | some a => simp [h]
  | none => simp [h, findAgent_append_right _ _ _ h]

theorem findAgent_record_activity (m : TeamCoherenceMonitor) (name : String) (now : Int) :
    findAgent (m.record_activity name now).agents (pyUpper name) =
      some { (findAgent m.agents (pyUpper name)).getD (mkAgent (pyUpper name)) with
             last_seen := some now, is_active := true } := by
  simp only [TeamCoherenceMonitor.record_activity]
  rw [findAgent_updateAgent, findAgent_register]
  rfl

theorem findAgent_record_response (m : TeamCoherenceMonitor) (name : String)
    (now : Int) (latency : ℚ) :
    findAgent (m.record_response name now latency).agents (pyUpper name) =
      some (TeamCoherenceMonitor.respUpdate now latency
        ((findAgent m.agents (pyUpper name)).getD (mkAgent (pyUpper name)))) := by
  simp only [TeamCoherenceMonitor.record_response]
  rw [findAgent_updateAgent, findAgent_register]
  rfl

/-! ## C2: which recording operations set `is_active`? -/

/-- C2 counterexample: on a fresh monitor, `record_response` is a
recency-bearing operation (it sets `last_seen`), yet it leaves `is_active`
at `false` — only `record_activity` raises the flag. -/
theorem record_response_leaves_inactive :
    ((findAgent (TeamCoherenceMonitor.record_response {} "FORGE" 5 (5/2)).agents
        "FORGE").map AgentStatus.last_seen = some (some 5)) ∧
    ((findAgent (TeamCoherenceMonitor.record_response {} "FORGE" 5 (5/2)).agents
        "FORGE").map AgentStatus.is_active = some false) := by
  constructor <;> rfl

/-- C2 (amended): `record_activity` sets `is_active` to true (and updates
`last_seen`); `record_response` updates `last_seen` but leaves `is_active`
exactly as it was (false for a freshly created record). -/
theorem is_active_update_spec (m : TeamCoherenceMonitor) (n : String) (now : Int)
    (lat : ℚ) :
    (∃ a, findAgent (m.record_activity n now).agents (pyUpper n) = some a ∧
        a.is_active = true ∧ a.last_seen = some now) ∧
    (∃ a, findAgent (m.record_response n now lat).agents (pyUpper n) = some a ∧
        a.last_seen = some now ∧
        a.is_active =
          ((findAgent m.agents (pyUpper n)).getD (mkAgent (pyUpper n))).is_active) := by
  constructor
  · exact ⟨_, findAgent_record_activity m n now, rfl, rfl⟩
  · exact ⟨_, findAgent_record_response m n now lat, rfl, rfl⟩

/-! ## C5: the latency history is the 100-suffix of everything recorded -/

theorem lastN_append_one (k : Nat) (L : List α) (x : α) :
    lastN k (lastN k L ++ [x]) = lastN k (L ++ [x]) := by
  rcases le_or_lt L.length k with h | h
  · rw [lastN_of_le h]
  · simp only [lastN]
    rw [← List.drop_append_of_le_length (by omega : L.length - k ≤ L.length)]
    rw [List.drop_drop]
    congr 1
    simp only [List.length_drop, List.length_append, List.length_singleton]
    omega

theorem respUpdate_lastN (now : Int) (x : ℚ) (a : AgentStatus) (L : List ℚ)
    (h : a.response_latencies = lastN 100 L) :
    (TeamCoherenceMonitor.respUpdate now x a).response_latencies =
      lastN 100 (L ++ [x]) := by
  simp only [TeamCoherenceMonitor.respUpdate, h]
  rw [trunc_eq_lastN]
  exact lastN_append_one 100 L x

theorem fold_record_response (n : String) (calls : List (Int × ℚ)) :
    ∀ (m : TeamCoherenceMonitor) (L : List ℚ),
      (∃ a, findAgent m.agents (pyUpper n) = some a ∧
          a.response_latencies = lastN 100 L) →
      ∃ a, findAgent
          (calls.foldl (fun s c => TeamCoherenceMonitor.record_response s n c.1 c.2)
            m).agents (pyUpper n) = some a ∧
        a.response_latencies = lastN 100 (L ++ calls.map Prod.snd) := by
  induction calls with
  | nil =>
    rintro m L ⟨a, ha, hl⟩
    exact ⟨a, by simpa using ha, by simpa using hl⟩
  | cons c rest ih =>
    rintro m L ⟨a, ha, hl⟩
    have hstep := findAgent_record_response m n c.1 c.2
    rw [ha] at hstep
    simp only [Option.getD_some] at hstep
    have hlat := respUpdate_lastN c.1 c.2 a L hl
    have hfold := ih (m.record_response n c.1 c.2) (L ++ [c.2]) ⟨_, hstep, hlat⟩
    obtain ⟨b, hb, hbl⟩ := hfold
    refine ⟨b, by simpa using hb, ?_⟩
    rw [hbl]
    simp

/-- C5: starting from a monitor in which the agent is not yet registered, any
sequence of `record_response` calls leaves the agent's `response_latencies`
equal to the suffix of the 100 most recently recorded latencies, in recording
order, so the history never exceeds 100 entries and the oldest entries are the
ones evicted. -/
theorem record_response_latency_window (m : TeamCoherenceMonitor) (n : String)
    (calls : List (Int × ℚ)) (habs : findAgent m.agents (pyUpper n) = none)
    (hne : calls ≠ []) :
    ∃ a, findAgent
        (calls.foldl (fun s c => TeamCoherenceMonitor.record_response s n c.1 c.2)
          m).agents (pyUpper n) = some a ∧
      a.response_latencies = lastN 100 (calls.map Prod.snd) ∧
      a.response_latencies.length ≤ 100 := by
  match calls, hne with
  | c :: rest, _ =>
    have hstep := findAgent_record_response m n c.1 c.2
    rw [habs] at hstep
    simp only [Option.getD_none] at hstep
    have h0 : (mkAgent (pyUpper n)).response_latencies = lastN 100 ([] : List ℚ) := rfl
    have hlat := respUpdate_lastN c.1 c.2 (mkAgent (pyUpper n)) [] h0
    have hfold := fold_record_response n rest (m.record_response n c.1 c.2)
      ([] ++ [c.2]) ⟨_, hstep, hlat⟩
    obtain ⟨a, ha, hl⟩ := hfold
    refine ⟨a, by simpa using ha, ?_, ?_⟩
    · rw [hl]
      simp
    · rw [hl]
      exact lastN_length_le 100 _

/-- Witness for `record_response_latency_window`: a fresh monitor, agent
FORGE, three recorded latencies. -/
theorem record_response_latency_window_witness :
    ∃ a, findAgent
        (([((0:Int), (1:ℚ)), (1, 2), (2, 3)].foldl
            (fun s c => TeamCoherenceMonitor.record_response s "FORGE" c.1 c.2)
          ({} : TeamCoherenceMonitor))).agents (pyUpper "FORGE") = some a ∧
      a.response_latencies = lastN 100 ([((0:Int), (1:ℚ)), (1, 2), (2, 3)].map Prod.snd) ∧
      a.response_latencies.length ≤ 100 :=
  record_response_latency_window {} "FORGE" [(0, 1), (1, 2), (2, 3)] rfl (by simp)

/-! ## C8: trend analysis -/

/-- The snapshots get_trend keeps: timestamp within the trailing window
(line 811-812). -/
def trend_recent (m : TeamCoherenceMonitor) (now minutes : Int) :
    List CoherenceSnapshot :=
  m.snapshots.filter (fun s => now - minutes * 60 < s.timestamp)

/-- The qualifying snapshots' scores in chronological (stored) order
(line 824). -/
def trend_scores (m : TeamCoherenceMonitor) (now minutes : Int) : List ℚ :=
  (trend_recent m now minutes).map CoherenceSnapshot.overall_score

/-- `scores[:len(scores)//2]` (line 825). -/
def trend_first_half (m : TeamCoherenceMonitor) (now minutes : Int) : List ℚ :=
  (trend_scores m now minutes).take ((trend_scores m now minutes).length / 2)

/-- `scores[len(scores)//2:]` (line 826). -/
def trend_second_half (m : TeamCoherenceMonitor) (now minutes : Int) : List ℚ :=
  (trend_scores m now minutes).drop ((trend_scores m now minutes).length / 2)

/-- `change = mean(second half) - mean(first half)` (lines 828-830). -/
def trend_change (m : TeamCoherenceMonitor) (now minutes : Int) : ℚ :=
  listMean (trend_second_half m now minutes) - listMean (trend_first_half m now minutes)

/-- C8: with fewer than 2 qualifying snapshots, `get_trend` returns STABLE,
change 0, the qualifying count as sample count, and min/max/avg all equal to
the current instantaneous team score; with 2 or more, it splits the
chronologically ordered qualifying scores at the floor-division midpoint
(first half gets `n / 2` entries, second half the rest, so the extra sample
of an odd count goes to the second half), reports
`change = mean(second half) - mean(first half)` rounded to one decimal,
classifies the unrounded change (`> 5` IMPROVING, `< -5` DEGRADING, else
STABLE), and reports min/max/avg over all qualifying scores. -/
theorem get_trend_spec (m : TeamCoherenceMonitor) (now minutes : Int) :
    ((trend_recent m now minutes).length < 2 →
      TeamCoherenceMonitor.get_trend m now minutes =
        { trend := "STABLE", change := 0,
          samples := (trend_recent m now minutes).length,
          min_score := TeamCoherenceMonitor.get_coherence_score m now,
          max_score := TeamCoherenceMonitor.get_coherence_score m now,
          avg_score := TeamCoherenceMonitor.get_coherence_score m now }) ∧
    (2 ≤ (trend_recent m now minutes).length →
      trend_first_half m now minutes ++ trend_second_half m now minutes =
          trend_scores m now minutes ∧
      (trend_first_half m now minutes).length = (trend_scores m now minutes).length / 2 ∧
      (trend_second_half m now minutes).length =
          (trend_scores m now minutes).length - (trend_scores m now minutes).length / 2 ∧
      (trend_first_half m now minutes).length ≤ (trend_second_half m now minutes).length ∧
      (trend_second_half m now minutes).length ≤
          (trend_first_half m now minutes).length + 1 ∧
      TeamCoherenceMonitor.get_trend m now minutes =
        { trend := if 5 < trend_change m now minutes then "IMPROVING"
                   else if trend_change m now minutes < -5 then "DEGRADING"
                   else "STABLE",
          change := pyRound1 (trend_change m now minutes),
          samples := (trend_recent m now minutes).length,
          min_score := listMin (trend_scores m now minutes),
          max_score := listMax (trend_scores m now minutes),
          avg_score := pyRound1 (listMean (trend_scores m now minutes)) }) := by
  constructor
  · intro hlt
    simp only [TeamCoherenceMonitor.get_trend]
    rw [if_pos (by simpa [trend_recent] using hlt)]
    simp [trend_recent]
  · intro hge
    have hlen : (trend_scores m now minutes).length = (trend_recent m now minutes).length := by
      simp [trend_scores]
    refine ⟨List.take_append_drop _ _, ?_, ?_, ?_, ?_, ?_⟩
    · simp only [trend_first_half, List.length_take]
      omega
    · simp only [trend_second_half, List.length_drop]
    · simp only [trend_first_half, trend_second_half, List.length_take, List.length_drop]
      omega
    · simp only [trend_first_half, trend_second_half, List.length_take, List.length_drop]
      omega
    · simp only [TeamCoherenceMonitor.get_trend]
      rw [if_neg (by simp only [trend_recent] at hge; omega)]
      simp only [trend_change, trend_second_half, trend_first_half, trend_scores,
        trend_recent]

/-! ## C10: the facade's `clear_alerts` does not canonicalize the name -/

/-- C10: stored alerts carry the canonical uppercase agent name, but the
Monitor Facade's `clear_alerts` passes the supplied name to the alert engine
unchanged (line 899, no `.upper()`): if every active alert names its agent in
canonical uppercase form and the supplied name differs from its canonical
form (here: it is not its own uppercasing), the call removes zero alerts and
returns 0 and leaves the active set untouched — even though `get_agent`
resolves that very name (via uppercasing) to the existing record. -/
theorem facade_clear_alerts_case_sensitive (m : TeamCoherenceMonitor) (n : String)
    (hcanon : ∀ a ∈ m.alerts.active_alerts, ∀ g, a.agent = some g → pyUpper g = g)
    (hncase : pyUpper n ≠ n) (rec : AgentStatus)
    (hrec : findAgent m.agents (pyUpper n) = some rec) :
    (m.clear_alerts (some n)).2 = 0 ∧
    (m.clear_alerts (some n)).1.alerts.active_alerts = m.alerts.active_alerts ∧
    m.get_agent n = some rec := by
  have hfilter : m.alerts.active_alerts.filter
      (fun a => decide (a.agent ≠ some n) && true) = m.alerts.active_alerts := by
    rw [List.filter_eq_self]
    intro a ha
    simp only [Bool.and_true, decide_eq_true_iff]
    intro hcontra
    exact hncase (hcanon a ha n hcontra)
  refine ⟨?_, ?_, hrec⟩
  · simp only [TeamCoherenceMonitor.clear_alerts, AlertSystem.clear_alerts, hfilter]
    omega
  · simp only [TeamCoherenceMonitor.clear_alerts, AlertSystem.clear_alerts, hfilter]

/-- A monitor with one registered agent FORGE and one active FORGE alert,
used as the C10 witness input. -/
def wMonitor : TeamCoherenceMonitor :=
  { thresholds := {},
    agents := [("FORGE", mkAgent "FORGE")],
    alerts := { thresholds := {}, active_alerts := [cAlert], alert_history := [cAlert] },
    snapshots := [] }

/-- Witness for `facade_clear_alerts_case_sensitive`: clearing with the name
`"Forge"` removes nothing although `get_agent "Forge"` finds the record. -/
theorem facade_clear_alerts_case_sensitive_witness :
    (wMonitor.clear_alerts (some "Forge")).2 = 0 ∧
    (wMonitor.clear_alerts (some "Forge")).1.alerts.active_alerts =
      wMonitor.alerts.active_alerts ∧
    wMonitor.get_agent "Forge" = some (mkAgent "FORGE") := by
  refine facade_clear_alerts_case_sensitive wMonitor "Forge" ?_ (by decide)
    (mkAgent "FORGE") (by decide)
  intro a ha g hg
  have hac : a = cAlert := by
    simpa [wMonitor] using ha
  subst hac
  have hgf : g = "FORGE" := by
    have : (some "FORGE" : Option String) = some g := by
      simpa [cAlert] using hg
    exact (Option.some.injEq _ _ ▸ this).symm
  subst hgf
  decide

/-! ## C9: serialization round-trips -/

/-- The dictionary shape `AgentStatus.to_dict` produces (lines 72-85); the
ISO-8601 text timestamp is modelled by the timestamp value itself (the text
round-trips losslessly through `datetime.fromisoformat`). -/
structure AgentStatusDict where
  name : String
  last_seen : Option Int
  is_active : Bool
  response_latencies : List ℚ
  mentions_received : Nat
  mentions_acknowledged : Nat
  correct_claims : Nat
  total_claims : Nat
  messages_sent : Nat
  errors_detected : Nat
deriving DecidableEq

namespace AgentStatus

/-- `AgentStatus.to_dict` (lines 72-85): every field is copied, but the
latency history is truncated to the last 100 entries (`[-100:]`). -/
def to_dict (a : AgentStatus) : AgentStatusDict :=
  { name := a.name,
    last_seen := a.last_seen,
    is_active := a.is_active,
    response_latencies := lastN 100 a.response_latencies,
    mentions_received := a.mentions_received,
    mentions_acknowledged := a.mentions_acknowledged,
    correct_claims := a.correct_claims,
    total_claims := a.total_claims,
    messages_sent := a.messages_sent,
    errors_detected := a.errors_detected }

/-- `AgentStatus.from_dict` (lines 87-101) on a complete dictionary (as
`to_dict` always produces: every key present, defaults unused). -/
def from_dict (d : AgentStatusDict) : AgentStatus :=
  { name := d.name,
    last_seen := d.last_seen,
    is_active := d.is_active,
    response_latencies := d.response_latencies,
    mentions_received := d.mentions_received,
    mentions_acknowledged := d.mentions_acknowledged,
    correct_claims := d.correct_claims,
    total_claims := d.total_claims,
    messages_sent := d.messages_sent,
    errors_detected := d.errors_detected }

end AgentStatus

/-- The dictionary shape `Alert.to_dict` produces (lines 115-125). -/
structure AlertDict where
  timestamp : Int
  severity : String
  agent : Option String
  metric : String
  message : String
  value : ℚ
  threshold : ℚ
deriving DecidableEq

namespace Alert

/-- `Alert.to_dict` (lines 115-125): every field copied. -/
def to_dict (a : Alert) : AlertDict :=
  { timestamp := a.timestamp, severity := a.severity, agent := a.agent,
    metric := a.metric, message := a.message, value := a.value,
    threshold := a.threshold }

/-- `Alert.from_dict` (lines 127-138). -/
def from_dict (d : AlertDict) : Alert :=
  { timestamp := d.timestamp, severity := d.severity, agent := d.agent,
    metric := d.metric, message := d.message, value := d.value,
    threshold := d.threshold }

end Alert

/-- The dictionary `asdict` produces for `Thresholds` (lines 190-192):
all ten configurable cutoffs. -/
structure ThresholdsDict where
  latency_warning : ℚ
  latency_critical : ℚ
  ack_rate_warning : ℚ
  ack_rate_critical : ℚ
  fidelity_warning : ℚ
  fidelity_critical : ℚ
  inactive_warning : ℚ
  inactive_critical : ℚ
  coherence_warning : ℚ
  coherence_critical : ℚ
deriving DecidableEq

namespace Thresholds

/-- `Thresholds.to_dict` (lines 190-192): `asdict(self)`. -/
def to_dict (t : Thresholds) : ThresholdsDict :=
  { latency_warning := t.latency_warning, latency_critical := t.latency_critical,
    ack_rate_warning := t.ack_rate_warning, ack_rate_critical := t.ack_rate_critical,
    fidelity_warning := t.fidelity_warning, fidelity_critical := t.fidelity_critical,
    inactive_warning := t.inactive_warning, inactive_critical := t.inactive_critical,
    coherence_warning := t.coherence_warning, coherence_critical := t.coherence_critical }

/-- `Thresholds.from_dict` (lines 194-197) on a complete dictionary: the
key filter keeps every dataclass field. -/
def from_dict (d : ThresholdsDict) : Thresholds :=
  { latency_warning := d.latency_warning, latency_critical := d.latency_critical,
    ack_rate_warning := d.ack_rate_warning, ack_rate_critical := d.ack_rate_critical,
    fidelity_warning := d.fidelity_warning, fidelity_critical := d.fidelity_critical,
    inactive_warning := d.inactive_warning, inactive_critical := d.inactive_critical,
    coherence_warning := d.coherence_warning, coherence_critical := d.coherence_critical }

end Thresholds

/-- An agent record whose latency history holds 101 entries, more than the
engine itself ever keeps. -/
def overAgent : AgentStatus :=
  { name := "A", response_latencies := List.replicate 101 0 }

/-- C9 counterexample: `to_dict` truncates the latency history to its last
100 entries, so a record holding 101 latencies does not round-trip — its
serialized form deserializes to a record with only 100 entries. -/
theorem agent_roundtrip_truncates_over_100 :
    AgentStatus.from_dict (AgentStatus.to_dict overAgent) ≠ overAgent := by
  intro h
  have hlen := congrArg (fun s => s.response_latencies.length) h
  simp only [AgentStatus.from_dict, AgentStatus.to_dict, overAgent] at hlen
  rw [length_lastN] at hlen
  simp at hlen

/-- C9 (amended): serialization round-trips are exact for every Alert and
every Threshold Configuration, and for every Agent Record whose latency
history holds at most 100 entries (the bound the recording operations
maintain); only the truncation of an over-long latency history can be lost. -/
theorem serialization_roundtrip :
    (∀ a : AgentStatus, a.response_latencies.length ≤ 100 →
        AgentStatus.from_dict (AgentStatus.to_dict a) = a) ∧
    (∀ al : Alert, Alert.from_dict (Alert.to_dict al) = al) ∧
    (∀ th : Thresholds, Thresholds.from_dict (Thresholds.to_dict th) = th) := by
  refine ⟨?_, fun al => rfl, fun th => rfl⟩
  intro a h
  have hform : AgentStatus.from_dict (AgentStatus.to_dict a) =
      { a with response_latencies := lastN 100 a.response_latencies } := rfl
  rw [hform, lastN_of_le h]
